import Mathlib

/-!
Verification of the insights retrieval pipeline.

This file gives a shallow embedding, in Lean 4, of the retrieval-and-ranking
core of the repository: the regex Metric Extractor
(`app/controllers/documents.py`), the KPI line parser and Numeric Scorer
(`app/integrations/llm.py`), the search endpoints
(`app/api/endpoints/elasticsearch.py`, `app/api/endpoints/llm.py`) and the
index lifecycle (`app/integrations/es.py`).  Python floats are modelled as
exact rationals (`ℚ`), Python `None`-carrying values as `Option`/`PyVal`,
raised exceptions as `Except` errors, and the external collaborators
(search engine, embedding model, generative model) as explicit oracle
parameters.  All definitions are executable.
-/

namespace Insights

/-! ### Python-level string primitives -/

/-- Python's `\s` character class (whitespace as used by `str.strip` and `re`). -/
def pyIsSpace (c : Char) : Bool :=
  c = ' ' || c = '\t' || c = '\n' || c = '\r' || c = '\x0b' || c = '\x0c'

/-- `str.split(sep)` for a single-character separator: `splitOnChar c l`
splits `l` at every occurrence of `c`, keeping empty segments. -/
def splitOnChar (c : Char) : List Char → List (List Char)
  | [] => [[]]
  | x :: xs =>
    match splitOnChar c xs with
    | [] => [[]]
    | h :: t => if x = c then [] :: h :: t else (x :: h) :: t

/-- `needle` occurs at the head of `hay`. -/
def startsWithChars : List Char → List Char → Bool
  | [], _ => true
  | _ :: _, [] => false
  | n :: ns, h :: hs => n = h && startsWithChars ns hs

/-- Python's substring test `needle in hay`. -/
def containsSub (needle : List Char) : List Char → Bool
  | [] => startsWithChars needle []
  | c :: hs => startsWithChars needle (c :: hs) || containsSub needle hs

/-- Python `str.strip()`: drop leading and trailing whitespace. -/
def stripChars (l : List Char) : List Char :=
  ((l.dropWhile pyIsSpace).reverse.dropWhile pyIsSpace).reverse

/-- Python `str.replace(c, "")` for a one-character needle. -/
def removeChar (c : Char) (l : List Char) : List Char :=
  l.filter (fun x => x ≠ c)

/-- Python `line.split(":")[-1]`: the segment after the last colon
(the whole line when there is no colon). -/
def afterLastColon (l : List Char) : List Char :=
  (splitOnChar ':' l).getLastD []

/-- Decimal value of a digit string. -/
def digitsToNat (l : List Char) : Nat :=
  l.foldl (fun n c => 10 * n + (c.toNat - 48)) 0

/-- Unsigned decimal literal: `digits`, `digits.digits`, `digits.` or
`.digits`; anything else (empty, several dots, stray characters) fails. -/
def pyFloatCore (s : List Char) : Option ℚ :=
  let ip := s.takeWhile Char.isDigit
  let rest := s.dropWhile Char.isDigit
  match rest with
  | [] => if ip.isEmpty then none else some (digitsToNat ip : ℚ)
  | '.' :: fp =>
    if fp.all Char.isDigit && (!ip.isEmpty || !fp.isEmpty) then
      some ((digitsToNat ip : ℚ) + (digitsToNat fp : ℚ) / (10 : ℚ) ^ fp.length)
    else none
  | _ => none

/-- Model of Python `float(string)` on the decimal fragment the program
feeds it (optional sign, digits, at most one dot, surrounding whitespace).
Exotic accepted forms (`inf`, `nan`, exponents) never occur at the call
sites, whose inputs are built from digit/`,`/`.`/`$`/`%` material. -/
def pyFloat? (s : List Char) : Option ℚ :=
  match stripChars s with
  | '-' :: t => (pyFloatCore t).map (fun q => -q)
  | '+' :: t => pyFloatCore t
  | t => pyFloatCore t

/-! ### The KPI record -/

/-- The four optional numeric KPIs; `none` means "not found", never zero. -/
structure Kpis where
  revenue : Option ℚ
  net_profit : Option ℚ
  revenue_growth_rate : Option ℚ
  operational_cost_reduction : Option ℚ
deriving DecidableEq, Repr

def emptyKpis : Kpis := ⟨none, none, none, none⟩

/-! ### KPI Responder Bridge line parser (`parse_kpis_from_response`) -/

/-- `line.split(":")[-1].strip().replace("$", "").replace(",", "")`. -/
def moneyField (line : List Char) : List Char :=
  removeChar ',' (removeChar '$' (stripChars (afterLastColon line)))

/-- `line.split(":")[-1].strip().replace("%", "")`. -/
def percentField (line : List Char) : List Char :=
  removeChar '%' (stripChars (afterLastColon line))

/-- One iteration of the `for line in lines` loop of
`parse_kpis_from_response`: the `if`/`elif` chain on the lowercased line;
a successful `float` overwrites the field, a `ValueError` leaves the
record unchanged (`continue`). -/
def parseKpiLine (k : Kpis) (line : List Char) : Kpis :=
  let ll := line.map Char.toLower
  if containsSub ("revenue:".toList) ll then
    match pyFloat? (moneyField line) with
    | some v => { k with revenue := some v }
    | none => k
  else if containsSub ("net profit:".toList) ll then
    match pyFloat? (moneyField line) with
    | some v => { k with net_profit := some v }
    | none => k
  else if containsSub ("revenue growth rate:".toList) ll then
    match pyFloat? (percentField line) with
    | some v => { k with revenue_growth_rate := some v }
    | none => k
  else if containsSub ("operational cost reduction:".toList) ll then
    match pyFloat? (percentField line) with
    | some v => { k with operational_cost_reduction := some v }
    | none => k
  else k

/-- `parse_kpis_from_response` of `app/integrations/llm.py`: split the
model response on newlines and fold the labelled-line parser over the
lines, starting from the all-`None` record. -/
def parse_kpis_from_response (response : String) : Kpis :=
  (splitOnChar '\n' response.toList).foldl parseKpiLine emptyKpis

/-! ### Metric Extractor (`DocumentController.extract_metrics`)

The four patterns are `Label[:\s]+\$([\d,\.]+)` (revenue, net profit) and
`Label[:\s]+([\d\.]+)%` (growth rate, cost reduction).  Since `$`, the
capture-class characters and `%` are disjoint from the preceding character
classes, greedy matching with backtracking coincides with
maximal-run-then-check, which is what the matchers below implement. -/

def isColonOrSpace (c : Char) : Bool := c = ':' || pyIsSpace c

def isDigitCommaDot (c : Char) : Bool := c.isDigit || c = ',' || c = '.'

def isDigitDot (c : Char) : Bool := c.isDigit || c = '.'

/-- Match `label[:\s]+\$([\d,\.]+)` at the head of `s`, returning the
captured group. -/
def matchDollarAt (label : List Char) (s : List Char) : Option (List Char) :=
  if startsWithChars label s then
    if ((s.drop label.length).takeWhile isColonOrSpace).isEmpty then none
    else
      match (s.drop label.length).dropWhile isColonOrSpace with
      | '$' :: rest3 =>
        if (rest3.takeWhile isDigitCommaDot).isEmpty then none
        else some (rest3.takeWhile isDigitCommaDot)
      | _ => none
  else none

/-- Match `label[:\s]+([\d\.]+)%` at the head of `s`, returning the
captured group. -/
def matchPercentAt (label : List Char) (s : List Char) : Option (List Char) :=
  if startsWithChars label s then
    if ((s.drop label.length).takeWhile isColonOrSpace).isEmpty then none
    else
      if (((s.drop label.length).dropWhile isColonOrSpace).takeWhile isDigitDot).isEmpty then
        none
      else
        match ((s.drop label.length).dropWhile isColonOrSpace).dropWhile isDigitDot with
        | '%' :: _ =>
          some (((s.drop label.length).dropWhile isColonOrSpace).takeWhile isDigitDot)
        | _ => none
  else none

/-- `re.search`: try the matcher at each position left to right and return
the first capture. -/
def searchCapture (m : List Char → Option (List Char)) : List Char → Option (List Char)
  | [] => m []
  | c :: rest =>
    match m (c :: rest) with
    | some cap => some cap
    | none => searchCapture m rest

/-- Fourth block of the `try` in `extract_metrics` (operational cost
reduction); a `float` failure aborts the remaining blocks, which here are
none. -/
def emStep4 (s : List Char) (k : Kpis) : Kpis :=
  match searchCapture (matchPercentAt ("Operational Cost Reduction".toList)) s with
  | some cap =>
    match pyFloat? cap with
    | some v => { k with operational_cost_reduction := some v }
    | none => k
  | none => k

/-- Third block (revenue growth rate); on `float` failure the exception
aborts the `try`, so the later block is skipped. -/
def emStep3 (s : List Char) (k : Kpis) : Kpis :=
  match searchCapture (matchPercentAt ("Revenue Growth Rate".toList)) s with
  | some cap =>
    match pyFloat? cap with
    | some v => emStep4 s { k with revenue_growth_rate := some v }
    | none => k
  | none => emStep4 s k

/-- Second block (net profit). -/
def emStep2 (s : List Char) (k : Kpis) : Kpis :=
  match searchCapture (matchDollarAt ("Net Profit".toList)) s with
  | some cap =>
    match pyFloat? (removeChar ',' cap) with
    | some v => emStep3 s { k with net_profit := some v }
    | none => k
  | none => emStep3 s k

/-- First block (revenue). -/
def emStep1 (s : List Char) (k : Kpis) : Kpis :=
  match searchCapture (matchDollarAt ("Revenue".toList)) s with
  | some cap =>
    match pyFloat? (removeChar ',' cap) with
    | some v => emStep2 s { k with revenue := some v }
    | none => k
  | none => emStep2 s k

/-- `DocumentController.extract_metrics`: run the four regex blocks in
order inside one `try`; an unparseable captured number raises and leaves
the remaining fields as accumulated so far. -/
def extract_metrics (content : String) : Kpis :=
  emStep1 content.toList emptyKpis

/-! ### Python values and dictionaries

The endpoints shuttle documents around as Python dicts; the values that
actually occur are `None`, floats, strings and the embedding vector. -/

inductive PyVal where
  | pnone : PyVal
  | num : ℚ → PyVal
  | str : String → PyVal
  | numList : List ℚ → PyVal
deriving DecidableEq, Repr

abbrev PyDict := List (String × PyVal)

/-- Python `d.get(k)` / `d[k]` when present: `none` models a missing key. -/
def dlookup (d : PyDict) (k : String) : Option PyVal :=
  (d.find? (fun p => p.1 == k)).map (·.2)

/-- Python `d.get(k)` (default `None`): a missing key and a stored `None`
are both Python `None`. -/
def pyGet (d : PyDict) (k : String) : PyVal :=
  (dlookup d k).getD PyVal.pnone

def dkeys (d : PyDict) : List String := d.map (·.1)

/-- Python `dict.__eq__`: same key set (order-independent) and equal
values; the dicts built by this program never carry duplicate keys. -/
def dictEq (a b : PyDict) : Bool :=
  (dkeys a).all (fun k => (dkeys b).contains k) &&
  (dkeys b).all (fun k => (dkeys a).contains k) &&
  (dkeys a).all (fun k => pyGet a k == pyGet b k)

/-- Python truthiness of the values above. -/
def pyTruthy : PyVal → Bool
  | .pnone => false
  | .num q => q != 0
  | .str s => s != ""
  | .numList l => !l.isEmpty

/-- Read a value that the program treats as text (document contents and
titles are always strings here). -/
def asString : PyVal → String
  | .str s => s
  | _ => ""

def optQ : Option ℚ → PyVal
  | some q => .num q
  | none => .pnone

/-- A numeric-or-`None` value, as all KPI slots and query targets are.
(A non-numeric value in such a slot would raise a `TypeError` in the
source; the program only ever stores floats or `None` there.) -/
def asNum? : PyVal → Option ℚ
  | .num q => some q
  | _ => none

/-! ### Numeric Scorer (`compute_numerical_score`) -/

/-- The default `weights` dict: 1.0 for each of the four KPIs. -/
def default_weights : List (String × ℚ) :=
  [("revenue", 1), ("net_profit", 1), ("revenue_growth_rate", 1),
   ("operational_cost_reduction", 1)]

/-- `compute_numerical_score` of `app/integrations/llm.py`: iterate over
the weights, and for every KPI whose target and actual value are both
present add `weight / (1 + |actual - target|)`. -/
def compute_numerical_score (document query_params : PyDict)
    (weights : List (String × ℚ)) : ℚ :=
  weights.foldl
    (fun score kw =>
      match asNum? (pyGet query_params kw.1), asNum? (pyGet document kw.1) with
      | some target, some actual => score + kw.2 / (1 + |actual - target|)
      | _, _ => score)
    0

/-- The per-KPI summand of the Numeric Scorer. -/
def contrib (w : ℚ) (target actual : Option ℚ) : ℚ :=
  match target, actual with
  | some t, some a => w / (1 + |a - t|)
  | _, _ => 0

/-! ### Keyword search and LLM enrichment -/

/-- One hit of the search engine's response: the engine's native
relevance score together with the stored `_source` document. -/
structure ESHit where
  hitScore : ℚ
  source : PyDict
deriving DecidableEq, Repr

/-- `search_elasticsearch` of `app/integrations/es.py`: the endpoint's
query and limit are sent to the engine (modelled by the `hits` the engine
returns); the function keeps only `hit["_source"]`, discarding the native
`_score` of every hit. -/
def search_elasticsearch (hits : List ESHit) : List PyDict :=
  hits.map (·.source)

/-- One iteration of `extract_and_enrich_documents`: skip documents with
falsy content; ask the generative model (oracle `llm`, `none` meaning the
call raised) for the KPIs and parse its reply, any exception yielding the
all-`None` record; rebuild the document as a fresh dict of six keys. -/
def enrichOne (llm : String → Option String) (doc : PyDict) : Option PyDict :=
  let contentV := (dlookup doc "content").getD (PyVal.str "")
  if !pyTruthy contentV then none
  else
    let content := asString contentV
    let kpis :=
      match llm content with
      | some resp => parse_kpis_from_response resp
      | none => emptyKpis
    some
      [("title", pyGet doc "title"),
       ("content", PyVal.str content),
       ("revenue", optQ kpis.revenue),
       ("net_profit", optQ kpis.net_profit),
       ("revenue_growth_rate", optQ kpis.revenue_growth_rate),
       ("operational_cost_reduction", optQ kpis.operational_cost_reduction)]

/-- `extract_and_enrich_documents` of `app/integrations/llm.py`. -/
def extract_and_enrich_documents (llm : String → Option String)
    (documents : List PyDict) : List PyDict :=
  documents.filterMap (enrichOne llm)

/-! ### Hybrid numeric-augmented retrieval (`/numeric-query`) -/

/-- The eight optional min/max bounds shared by the three filtering
endpoints. -/
structure KpiBounds where
  min_revenue : Option ℚ
  max_revenue : Option ℚ
  min_net_profit : Option ℚ
  max_net_profit : Option ℚ
  min_revenue_growth_rate : Option ℚ
  max_revenue_growth_rate : Option ℚ
  min_operational_cost_reduction : Option ℚ
  max_operational_cost_reduction : Option ℚ
deriving DecidableEq, Repr

def noBounds : KpiBounds := ⟨none, none, none, none, none, none, none, none⟩

/-- Python truthiness of an `Optional[float]`: `None` and `0.0` are falsy. -/
def optTruthy : Option ℚ → Bool
  | none => false
  | some q => q != 0

def boundsList (b : KpiBounds) : List (Option ℚ) :=
  [b.min_revenue, b.max_revenue, b.min_net_profit, b.max_net_profit,
   b.min_revenue_growth_rate, b.max_revenue_growth_rate,
   b.min_operational_cost_reduction, b.max_operational_cost_reduction]

/-- The `any([min_revenue, max_revenue, ...])` validity test of the
endpoints (zero-valued bounds are falsy and do not count). -/
def anyBound (b : KpiBounds) : Bool :=
  (boundsList b).any optTruthy

/-- `not min_k or (doc[k] is not None and doc[k] >= min_k)` from the
post-filter comprehension of `query_numeric_documents`. -/
def minOkNum (bound : Option ℚ) (v : PyVal) : Bool :=
  match bound with
  | none => true
  | some b =>
    if b == 0 then true
    else
      match v with
      | .num x => decide (b ≤ x)
      | _ => false

/-- `not max_k or (doc[k] is not None and doc[k] <= max_k)`. -/
def maxOkNum (bound : Option ℚ) (v : PyVal) : Bool :=
  match bound with
  | none => true
  | some b =>
    if b == 0 then true
    else
      match v with
      | .num x => decide (x ≤ b)
      | _ => false

/-- The conjunction of the eight bound checks in the `filtered_documents`
comprehension of `query_numeric_documents`. -/
def passesNumericBounds (b : KpiBounds) (doc : PyDict) : Bool :=
  minOkNum b.min_revenue (pyGet doc "revenue") &&
  maxOkNum b.max_revenue (pyGet doc "revenue") &&
  minOkNum b.min_net_profit (pyGet doc "net_profit") &&
  maxOkNum b.max_net_profit (pyGet doc "net_profit") &&
  minOkNum b.min_revenue_growth_rate (pyGet doc "revenue_growth_rate") &&
  maxOkNum b.max_revenue_growth_rate (pyGet doc "revenue_growth_rate") &&
  minOkNum b.min_operational_cost_reduction (pyGet doc "operational_cost_reduction") &&
  maxOkNum b.max_operational_cost_reduction (pyGet doc "operational_cost_reduction")

/-- `(min_k + max_k) / 2 if min_k and max_k else None`: the query target
for one KPI (both bounds must be truthy). -/
def midpoint (lo hi : Option ℚ) : Option ℚ :=
  if optTruthy lo && optTruthy hi then some ((lo.getD 0 + hi.getD 0) / 2)
  else none

/-- The `query_params` dict of `query_numeric_documents`. -/
def numericQueryParams (b : KpiBounds) : PyDict :=
  [("revenue", optQ (midpoint b.min_revenue b.max_revenue)),
   ("net_profit", optQ (midpoint b.min_net_profit b.max_net_profit)),
   ("revenue_growth_rate",
    optQ (midpoint b.min_revenue_growth_rate b.max_revenue_growth_rate)),
   ("operational_cost_reduction",
    optQ (midpoint b.min_operational_cost_reduction b.max_operational_cost_reduction))]

/-- An HTTP error response (`HTTPException`) or an uncaught Python
exception escaping the endpoint. -/
inductive EndpointError where
  | http : Nat → String → EndpointError
  | uncaught : String → EndpointError
deriving DecidableEq, Repr

/-- A `ranked_documents` entry:
`(final_score, relevance_score, numerical_score, doc)`. -/
abbrev Ranked := ℚ × ℚ × ℚ × PyDict

/-- The body of the `for doc in filtered_documents` ranking loop.  In the
source, `documents` and `scores` alias the same list of `_source` dicts
(`documents = response; scores = response`), so
`scores[documents.index(doc)]` is itself a dict and `0.7 * relevance_score`
would raise a `TypeError`; that branch is reachable only when the enriched
dict equals a raw source dict.  Otherwise `relevance_score` falls back
to `0`. -/
def rank_one (documents : List PyDict) (query_params : PyDict) (doc : PyDict) :
    Except EndpointError Ranked :=
  if documents.any (fun d => dictEq doc d) then
    .error (.uncaught "TypeError: unsupported operand type(s) for *: float and dict")
  else
    let relevance_score : ℚ := 0
    let numerical_score : ℚ := compute_numerical_score doc query_params default_weights
    let final_score : ℚ := 7/10 * relevance_score + 3/10 * numerical_score
    .ok (final_score, relevance_score, numerical_score, doc)

/-- The whole ranking loop, in list order. -/
def rankAll (documents : List PyDict) (query_params : PyDict) :
    List PyDict → Except EndpointError (List Ranked)
  | [] => .ok []
  | d :: ds => do
    let t ← rank_one documents query_params d
    let r ← rankAll documents query_params ds
    pure (t :: r)

/-- Stable insertion keeping `final_score` descending (ties keep the
earlier element first, like Python's stable `sort(reverse=True)`). -/
def insertByFinalDesc (t : Ranked) : List Ranked → List Ranked
  | [] => [t]
  | u :: us => if u.1 ≤ t.1 then t :: u :: us else u :: insertByFinalDesc t us

/-- `ranked_documents.sort(key=lambda x: x[0], reverse=True)`. -/
def sortByFinalDesc : List Ranked → List Ranked
  | [] => []
  | t :: ts => insertByFinalDesc t (sortByFinalDesc ts)

/-- The `/numeric-query` response: the generated answer and the ranked
tuples truncated to `limit` (the HTTP layer then projects title, content,
the two scores and the KPIs out of each tuple). -/
structure NQueryResult where
  answer : String
  ranked_documents : List Ranked
deriving DecidableEq, Repr

/-- `query_numeric_documents` of `app/api/endpoints/llm.py`.  External
collaborators are oracles: `esHits` stands for the engine's response to
the keyword query, `llm` for the per-document KPI extraction call and
`llmAnswer` for the final grounded-answer call (`none` = the call
raised). -/
def query_numeric_documents (bounds : KpiBounds) (limit : Nat)
    (esHits : List ESHit) (llm : String → Option String)
    (llmAnswer : Option String) : Except EndpointError NQueryResult :=
  if !anyBound bounds then
    .error (.http 400 "At least one numerical filter (min and max) must be provided.")
  else
    let response := search_elasticsearch esHits
    if response.isEmpty then .error (.http 404 "No relevant documents found.")
    else
      let documents := response
      let enriched_documents := extract_and_enrich_documents llm documents
      let filtered_documents := enriched_documents.filter (passesNumericBounds bounds)
      let query_params := numericQueryParams bounds
      match rankAll documents query_params filtered_documents with
      | .error e => .error e
      | .ok ranked =>
        let ranked_documents := sortByFinalDesc ranked
        match llmAnswer with
        | none => .error (.uncaught "RuntimeError: Error generating LLM response")
        | some ans => .ok ⟨ans, ranked_documents.take limit⟩

/-! ### `apply_numeric_filters` (`app/integrations/llm.py`)

Helper applying the eight bounds to ranked tuples; its bound checks use
Python truthiness (`not min_k`) but, unlike the endpoint's comprehension,
no `is not None` guard on the document value. -/

/-- `not min_k or doc[k] >= min_k`: comparing `None` with a float
raises. -/
def anfMin (bound : Option ℚ) (v : PyVal) : Except String Bool :=
  match bound with
  | none => .ok true
  | some b =>
    if b == 0 then .ok true
    else
      match v with
      | .num x => .ok (decide (b ≤ x))
      | _ => .error "TypeError: not supported between instances of NoneType and float"

/-- `not max_k or doc[k] <= max_k`. -/
def anfMax (bound : Option ℚ) (v : PyVal) : Except String Bool :=
  match bound with
  | none => .ok true
  | some b =>
    if b == 0 then .ok true
    else
      match v with
      | .num x => .ok (decide (x ≤ b))
      | _ => .error "TypeError: not supported between instances of NoneType and float"

/-- Short-circuiting Python `and` over possibly-raising tests. -/
def exAnd (a : Except String Bool) (b : Unit → Except String Bool) :
    Except String Bool :=
  match a with
  | .error e => .error e
  | .ok false => .ok false
  | .ok true => b ()

/-- The condition of the `apply_numeric_filters` comprehension for one
document. -/
def anfPasses (b : KpiBounds) (doc : PyDict) : Except String Bool :=
  exAnd (anfMin b.min_revenue (pyGet doc "revenue")) (fun _ =>
  exAnd (anfMax b.max_revenue (pyGet doc "revenue")) (fun _ =>
  exAnd (anfMin b.min_net_profit (pyGet doc "net_profit")) (fun _ =>
  exAnd (anfMax b.max_net_profit (pyGet doc "net_profit")) (fun _ =>
  exAnd (anfMin b.min_revenue_growth_rate (pyGet doc "revenue_growth_rate")) (fun _ =>
  exAnd (anfMax b.max_revenue_growth_rate (pyGet doc "revenue_growth_rate")) (fun _ =>
  exAnd (anfMin b.min_operational_cost_reduction (pyGet doc "operational_cost_reduction")) (fun _ =>
  anfMax b.max_operational_cost_reduction (pyGet doc "operational_cost_reduction"))))))))

/-- `apply_numeric_filters`: keep the ranked tuples whose document passes
all bound checks; an exception propagates. -/
def apply_numeric_filters (b : KpiBounds) :
    List Ranked → Except String (List Ranked)
  | [] => .ok []
  | t :: ts =>
    match anfPasses b t.2.2.2 with
    | .error e => .error e
    | .ok true => do
      let r ← apply_numeric_filters b ts
      pure (t :: r)
    | .ok false => apply_numeric_filters b ts

/-! ### Filter-only and semantic search (`app/api/endpoints/elasticsearch.py`) -/

/-- One index-level range predicate, `{"range": {field: {gte|lte: v}}}`. -/
structure RangeFilter where
  fieldName : String
  isGte : Bool
  value : ℚ
deriving DecidableEq, Repr

/-- `create_filters`: one range predicate per supplied (non-`None`)
bound, in source order.  (Defined at module level in the source but never
invoked by any endpoint.) -/
def create_filters (b : KpiBounds) : List RangeFilter :=
  (match b.min_revenue with | some v => [RangeFilter.mk "revenue" true v] | none => []) ++
  (match b.max_revenue with | some v => [RangeFilter.mk "revenue" false v] | none => []) ++
  (match b.min_net_profit with | some v => [RangeFilter.mk "net_profit" true v] | none => []) ++
  (match b.max_net_profit with | some v => [RangeFilter.mk "net_profit" false v] | none => []) ++
  (match b.min_revenue_growth_rate with | some v => [RangeFilter.mk "revenue_growth_rate" true v] | none => []) ++
  (match b.max_revenue_growth_rate with | some v => [RangeFilter.mk "revenue_growth_rate" false v] | none => []) ++
  (match b.min_operational_cost_reduction with | some v => [RangeFilter.mk "operational_cost_reduction" true v] | none => []) ++
  (match b.max_operational_cost_reduction with | some v => [RangeFilter.mk "operational_cost_reduction" false v] | none => [])

/-- A query body sent to the search engine.  `scriptScore` is the
cosine-similarity + 1.0 ranking whose inner query is the boolean AND of
`filters` (plain `match_all` when `filters` is empty, as in the source). -/
inductive QueryBody where
  | multiMatch (queryText : String) (fields : List String) (size : Nat)
  | matchAllQ (size : Nat)
  | scriptScore (filters : List RangeFilter) (queryVector : List ℚ) (size : Nat)
  | boolFilter (filters : List RangeFilter) (size : Nat)
deriving DecidableEq, Repr

/-- The filter list a query body carries. -/
def bodyFilters : QueryBody → List RangeFilter
  | .scriptScore fs _ _ => fs
  | .boolFilter fs _ => fs
  | _ => []

/-- `min_k is None or extracted_kpis.get(k, 0) >= min_k` from the
post-filter of `/efilter` and `/semantic-search`.  `parse_kpis_from_response`
always materialises all four keys, so the `0` default is dead and a
`None`-valued KPI reaches the comparison, raising `TypeError`.  Note the
`is None` test: a zero-valued bound is checked here. -/
def checkMin (bound : Option ℚ) (v : Option ℚ) : Except String Bool :=
  match bound with
  | none => .ok true
  | some b =>
    match v with
    | some x => .ok (decide (b ≤ x))
    | none => .error "TypeError: not supported between instances of NoneType and float"

/-- `max_k is None or extracted_kpis.get(k, float("inf")) <= max_k`. -/
def checkMax (bound : Option ℚ) (v : Option ℚ) : Except String Bool :=
  match bound with
  | none => .ok true
  | some b =>
    match v with
    | some x => .ok (decide (x ≤ b))
    | none => .error "TypeError: not supported between instances of NoneType and float"

/-- The eight-fold `and` of the `/efilter` / `/semantic-search`
post-filter. -/
def checkKpiBounds (b : KpiBounds) (k : Kpis) : Except String Bool :=
  exAnd (checkMin b.min_revenue k.revenue) (fun _ =>
  exAnd (checkMax b.max_revenue k.revenue) (fun _ =>
  exAnd (checkMin b.min_net_profit k.net_profit) (fun _ =>
  exAnd (checkMax b.max_net_profit k.net_profit) (fun _ =>
  exAnd (checkMin b.min_revenue_growth_rate k.revenue_growth_rate) (fun _ =>
  exAnd (checkMax b.max_revenue_growth_rate k.revenue_growth_rate) (fun _ =>
  exAnd (checkMin b.min_operational_cost_reduction k.operational_cost_reduction) (fun _ =>
  checkMax b.max_operational_cost_reduction k.operational_cost_reduction)))))))

/-- One entry of `filtered_results`. -/
structure FilterHit where
  title : PyVal
  content : String
  extracted_kpis : Kpis
deriving DecidableEq, Repr

/-- The shared `for doc in documents` extraction-and-filter loop of
`/efilter` and `/semantic-search` (the two bodies are textually identical
in the source): skip falsy content; a failing generation call becomes a
500; parse the reply (which cannot raise, so the `except: continue` around
it is dead); an exception in the bound checks escapes the endpoint. -/
def kpiFilterLoop (b : KpiBounds) (llm : String → Option String) :
    List PyDict → Except EndpointError (List FilterHit)
  | [] => .ok []
  | doc :: rest =>
    if !pyTruthy ((dlookup doc "content").getD (PyVal.str "")) then
      kpiFilterLoop b llm rest
    else
      match llm (asString ((dlookup doc "content").getD (PyVal.str ""))) with
      | none => .error (.http 500 "Error extracting KPIs")
      | some resp =>
        match checkKpiBounds b (parse_kpis_from_response resp) with
        | .error e => .error (.uncaught e)
        | .ok true => do
          let tail ← kpiFilterLoop b llm rest
          pure (⟨pyGet doc "title",
                 asString ((dlookup doc "content").getD (PyVal.str "")),
                 parse_kpis_from_response resp⟩ :: tail)
        | .ok false => kpiFilterLoop b llm rest

/-- `/efilter` (`filter_documents`).  Besides the result, the second
component records the query bodies actually sent to the index. -/
def filter_documents (b : KpiBounds) (limit : Nat)
    (esSearch : QueryBody → List PyDict) (llm : String → Option String) :
    Except EndpointError (List FilterHit) × List QueryBody :=
  if !anyBound b then
    (.error (.http 400 "At least one filter must be provided."), [])
  else
    let body := QueryBody.matchAllQ limit
    let documents := esSearch body
    if documents.isEmpty then (.error (.http 404 "No documents found."), [body])
    else
      match kpiFilterLoop b llm documents with
      | .error e => (.error e, [body])
      | .ok results =>
        if results.isEmpty then
          (.error (.http 404 "No documents matched the filter criteria."), [body])
        else (.ok results, [body])

/-- Python truthiness of the `Optional[str]` query parameter. -/
def strTruthy : Option String → Bool
  | none => false
  | some s => s != ""

/-- `/semantic-search` (`semantic_search`).  As in the source, the local
`filters` list is initialised empty and never populated (`create_filters`
is never called), so the issued query body carries no range predicate;
the supplied bounds act only through the post-filter loop. -/
def semantic_search (queryText : Option String) (b : KpiBounds) (limit : Nat)
    (esSearch : QueryBody → List PyDict) (llm : String → Option String)
    (embed : String → List ℚ) :
    Except EndpointError (List FilterHit) × List QueryBody :=
  if !strTruthy queryText && !anyBound b then
    (.error (.http 400 "At least one filter or a query must be provided."), [])
  else
    let filters : List RangeFilter := []
    let body :=
      if strTruthy queryText then
        QueryBody.scriptScore filters (embed (queryText.getD "")) limit
      else QueryBody.boolFilter filters limit
    let documents := esSearch body
    if documents.isEmpty then (.error (.http 404 "No documents found."), [body])
    else
      match kpiFilterLoop b llm documents with
      | .error e => (.error e, [body])
      | .ok results =>
        if results.isEmpty then
          (.error (.http 404 "No documents matched the filter criteria."), [body])
        else (.ok results, [body])

/-! ### Index lifecycle (`/edocuments` and `app/integrations/es.py`) -/

/-- A row fetched from MySQL (dates carried pre-serialised). -/
structure DbDoc where
  document_id : String
  title : String
  company : String
  date : Option String
  topics : String
  content : String
  conclusion : String
deriving DecidableEq, Repr

/-- The `_source` dict built by `index_documents_in_elasticsearch`. -/
def mkSource (embed : String → List ℚ) (d : DbDoc) : PyDict :=
  [("document_id", .str d.document_id),
   ("title", .str d.title),
   ("company", .str d.company),
   ("date", match d.date with | some s => .str s | none => .pnone),
   ("topics", .str d.topics),
   ("content", .str d.content),
   ("conclusion", .str d.conclusion),
   ("embedding", .numList (embed (d.title ++ " " ++ d.content ++ " " ++ d.conclusion)))]

/-- The index: `_id → _source` pairs in insertion order; `none` models a
deleted / not-yet-created index. -/
abbrev ESIndex := List (String × PyDict)

abbrev ESState := Option ESIndex

/-- Bulk indexing upserts by `_id`. -/
def upsertDoc (idx : ESIndex) (docId : String) (src : PyDict) : ESIndex :=
  if idx.any (fun p => p.1 == docId) then
    idx.map (fun p => if p.1 == docId then (docId, src) else p)
  else idx ++ [(docId, src)]

/-- `bulk(es, actions)`: indexing into an absent index auto-creates it. -/
def bulkIndex (actions : List (String × PyDict)) (st : ESState) : ESState :=
  some (actions.foldl (fun idx a => upsertDoc idx a.1 a.2) (st.getD []))

/-- `index_documents_in_elasticsearch` of `app/integrations/es.py`. -/
def index_documents_in_elasticsearch (embed : String → List ℚ)
    (documents : List DbDoc) (st : ESState) : ESState :=
  bulkIndex (documents.map (fun d => (d.document_id, mkSource embed d))) st

/-- `/edocuments` (`load_documents_to_elasticsearch`): delete the index
if it exists, fetch `dbDocs` from MySQL, 404 when empty, else bulk-load. -/
def load_documents_to_elasticsearch (embed : String → List ℚ)
    (dbDocs : List DbDoc) (st : ESState) :
    Except EndpointError String × ESState :=
  let st1 := if st.isSome then none else st
  if dbDocs.isEmpty then (.error (.http 404 "No documents found."), st1)
  else
    (.ok "Documents indexed successfully",
     index_documents_in_elasticsearch embed dbDocs st1)

/-- A `match_all` query over the index returns every stored `_source`. -/
def searchMatchAll (st : ESState) : List PyDict :=
  (st.getD []).map (·.2)

/-! ### Concrete example data used by the closed theorems -/

def exRawDoc : PyDict :=
  [("document_id", .str "d1"), ("title", .str "T"), ("company", .str "C"),
   ("date", .pnone), ("topics", .str "finance"),
   ("content", .str "Quarterly report"), ("conclusion", .str "Good"),
   ("embedding", .numList [1, 0])]

/-- The dict `extract_and_enrich_documents` builds from `exRawDoc` when the
model reports revenue 200. -/
def exEnriched : PyDict :=
  [("title", .str "T"), ("content", .str "Quarterly report"),
   ("revenue", .num 200), ("net_profit", .pnone),
   ("revenue_growth_rate", .pnone), ("operational_cost_reduction", .pnone)]

def exBoundsRev : KpiBounds := ⟨some 100, some 300, none, none, none, none, none, none⟩

def exBoundsMinRev : KpiBounds := ⟨some 100, none, none, none, none, none, none, none⟩

def zeroOnlyBounds : KpiBounds := ⟨some 0, none, none, none, none, none, none, none⟩

def exLlm200 : String → Option String := fun _ => some "Revenue: $200"

def exDocNoFigures : PyDict := [("title", .str "T"), ("content", .str "No figures here")]

def exDocLoss : PyDict := [("title", .str "T"), ("content", .str "Loss report")]

def exDb1 : DbDoc := ⟨"a", "T1", "C1", none, "t", "content one", "c"⟩

def exDb2 : DbDoc := ⟨"b", "T2", "C2", some "2024-01-01", "t", "content two", "c"⟩

/-! ### Helper lemmas -/

theorem contrib_absent_left (w : ℚ) (a : Option ℚ) : contrib w none a = 0 := rfl

theorem contrib_absent_right (w : ℚ) (t : Option ℚ) : contrib w t none = 0 := by
  cases t <;> rfl

theorem contrib_some (w t a : ℚ) : contrib w (some t) (some a) = w / (1 + |a - t|) := rfl

theorem one_add_abs_pos (x : ℚ) : 0 < 1 + |x| := by positivity

theorem contrib_nonneg (w : ℚ) (t a : Option ℚ) (hw : 0 ≤ w) : 0 ≤ contrib w t a := by
  cases t with
  | none => simp [contrib]
  | some t =>
    cases a with
    | none => simp [contrib]
    | some a =>
      rw [contrib_some]
      exact div_nonneg hw (le_of_lt (one_add_abs_pos _))

theorem contrib_le_weight (w : ℚ) (t a : Option ℚ) (hw : 0 ≤ w) : contrib w t a ≤ w := by
  cases t with
  | none => simpa [contrib] using hw
  | some t =>
    cases a with
    | none => simpa [contrib] using hw
    | some a =>
      rw [contrib_some]
      exact div_le_self hw (by simp)

theorem contrib_zero_gap (w t : ℚ) : contrib w (some t) (some t) = w := by
  rw [contrib_some]
  simp

theorem contrib_antitone (w t₁ t₂ a₁ a₂ : ℚ) (hw : 0 ≤ w)
    (h : |a₁ - t₁| ≤ |a₂ - t₂|) :
    contrib w (some t₂) (some a₂) ≤ contrib w (some t₁) (some a₁) := by
  rw [contrib_some, contrib_some]
  have h1 : (0 : ℚ) < 1 + |a₁ - t₁| := one_add_abs_pos _
  exact div_le_div_of_nonneg_left hw h1 (by linarith)

theorem cns_foldl (d q : PyDict) (ws : List (String × ℚ)) (init : ℚ) :
    ws.foldl
      (fun score kw =>
        match asNum? (pyGet q kw.1), asNum? (pyGet d kw.1) with
        | some target, some actual => score + kw.2 / (1 + |actual - target|)
        | _, _ => score)
      init
    = init + (ws.map (fun kw =>
        contrib kw.2 (asNum? (pyGet q kw.1)) (asNum? (pyGet d kw.1)))).sum := by
  induction ws generalizing init with
  | nil => simp
  | cons kw ws ih =>
    simp only [List.foldl_cons, List.map_cons, List.sum_cons]
    rw [ih]
    rcases h1 : asNum? (pyGet q kw.1) with _ | t <;>
      rcases h2 : asNum? (pyGet d kw.1) with _ | a <;>
      (simp [contrib]; try ring)

/-- The Numeric Scorer as a sum of per-KPI contributions. -/
theorem compute_numerical_score_eq_sum (d q : PyDict) (ws : List (String × ℚ)) :
    compute_numerical_score d q ws
    = (ws.map (fun kw =>
        contrib kw.2 (asNum? (pyGet q kw.1)) (asNum? (pyGet d kw.1)))).sum := by
  unfold compute_numerical_score
  rw [cns_foldl]
  ring

theorem rank_one_final (documents : List PyDict) (qp doc : PyDict) (t : Ranked)
    (h : rank_one documents qp doc = .ok t) :
    t.1 = 7/10 * t.2.1 + 3/10 * t.2.2.1 := by
  unfold rank_one at h
  split at h
  · exact absurd h (by simp)
  · injection h with h'
    subst h'
    rfl

theorem rankAll_final (documents : List PyDict) (qp : PyDict) (l : List PyDict)
    (rs : List Ranked) (h : rankAll documents qp l = .ok rs) :
    ∀ t ∈ rs, t.1 = 7/10 * t.2.1 + 3/10 * t.2.2.1 := by
  induction l generalizing rs with
  | nil =>
    unfold rankAll at h
    injection h with h'
    subst h'
    intro t ht
    cases ht
  | cons d ds ih =>
    unfold rankAll at h
    cases h1 : rank_one documents qp d with
    | error e => rw [h1] at h; simp [Bind.bind, Except.bind] at h
    | ok t0 =>
      rw [h1] at h
      cases h2 : rankAll documents qp ds with
      | error e => rw [h2] at h; simp [Bind.bind, Except.bind] at h
      | ok r0 =>
        rw [h2] at h
        simp only [Bind.bind, Except.bind, pure, Except.pure] at h
        injection h with h'
        subst h'
        intro t ht
        rw [List.mem_cons] at ht
        rcases ht with rfl | ht
        · exact rank_one_final documents qp d t h1
        · exact ih r0 h2 t ht

theorem mem_insertByFinalDesc {t u : Ranked} {l : List Ranked}
    (h : t ∈ insertByFinalDesc u l) : t = u ∨ t ∈ l := by
  induction l with
  | nil =>
    simp [insertByFinalDesc] at h
    exact Or.inl h
  | cons v vs ih =>
    unfold insertByFinalDesc at h
    split at h
    · rw [List.mem_cons] at h
      rcases h with rfl | h
      · exact Or.inl rfl
      · exact Or.inr h
    · rw [List.mem_cons] at h
      rcases h with rfl | h
      · exact Or.inr (List.mem_cons_self _ _)
      · rcases ih h with h' | h'
        · exact Or.inl h'
        · exact Or.inr (List.mem_cons_of_mem _ h')

theorem mem_sortByFinalDesc {t : Ranked} {l : List Ranked}
    (h : t ∈ sortByFinalDesc l) : t ∈ l := by
  induction l with
  | nil => simp [sortByFinalDesc] at h
  | cons u us ih =>
    unfold sortByFinalDesc at h
    rcases mem_insertByFinalDesc h with h' | h'
    · exact h' ▸ List.mem_cons_self _ _
    · exact List.mem_cons_of_mem _ (ih h')

theorem kpiFilterLoop_passes (b : KpiBounds) (llm : String → Option String)
    (docs : List PyDict) (results : List FilterHit)
    (h : kpiFilterLoop b llm docs = .ok results) :
    ∀ r ∈ results, checkKpiBounds b r.extracted_kpis = .ok true := by
  induction docs generalizing results with
  | nil =>
    unfold kpiFilterLoop at h
    injection h with h'
    subst h'
    intro r hr
    cases hr
  | cons doc rest ih =>
    unfold kpiFilterLoop at h
    split at h
    · exact ih results h
    · cases hllm : llm (asString ((dlookup doc "content").getD (PyVal.str ""))) with
      | none => rw [hllm] at h; exact absurd h (by simp)
      | some resp =>
        simp only [hllm] at h
        cases hchk : checkKpiBounds b (parse_kpis_from_response resp) with
        | error e =>
          simp only [hchk] at h
          exact Except.noConfusion h
        | ok pass =>
          simp only [hchk] at h
          cases pass with
          | true =>
            simp only [Bind.bind, Except.bind] at h
            cases h2 : kpiFilterLoop b llm rest with
            | error e => rw [h2] at h; simp at h
            | ok tail =>
              rw [h2] at h
              simp only [pure, Except.pure] at h
              injection h with h'
              subst h'
              intro r hr
              rw [List.mem_cons] at hr
              rcases hr with rfl | hr
              · simpa using hchk
              · exact ih tail h2 r hr
          | false => exact ih results h

theorem foldl_upsert_nodup (actions : List (String × PyDict)) (acc : ESIndex)
    (hnd : (actions.map Prod.fst).Nodup)
    (hdisj : ∀ a ∈ actions, ∀ p ∈ acc, p.1 ≠ a.1) :
    actions.foldl (fun idx a => upsertDoc idx a.1 a.2) acc = acc ++ actions := by
  induction actions generalizing acc with
  | nil => simp
  | cons a as ih =>
    have hnd' : a.1 ∉ (as.map Prod.fst) ∧ (as.map Prod.fst).Nodup := by
      rw [List.map_cons, List.nodup_cons] at hnd
      exact hnd
    simp only [List.foldl_cons]
    have hnew : upsertDoc acc a.1 a.2 = acc ++ [a] := by
      unfold upsertDoc
      have : acc.any (fun p => p.1 == a.1) = false := by
        rw [List.any_eq_false]
        intro p hp
        simpa using hdisj a (List.mem_cons_self _ _) p hp
      simp [this]
    rw [hnew, ih]
    · simp
    · exact hnd'.2
    · intro b hb p hp
      rw [List.mem_append] at hp
      rcases hp with hp | hp
      · exact hdisj b (List.mem_cons_of_mem _ hb) p hp
      · have hpa : p = a := List.mem_singleton.mp hp
        subst hpa
        intro hcontra
        exact hnd'.1 (List.mem_map.mpr ⟨b, hb, hcontra.symm⟩)

/-- A successful match at the head is the result of the search. -/
theorem searchCapture_head (m : List Char → Option (List Char)) (s : List Char)
    (cap : List Char) (hm : m s = some cap) : searchCapture m s = some cap := by
  cases s with
  | nil => simpa [searchCapture] using hm
  | cons c rest => simp [searchCapture, hm]

/-- A matcher that requires its label at the head finds nothing in text
that does not contain the label. -/
theorem searchCapture_none (needle : List Char) (m : List Char → Option (List Char))
    (hm : ∀ s, startsWithChars needle s = false → m s = none)
    (hay : List Char) (habs : containsSub needle hay = false) :
    searchCapture m hay = none := by
  induction hay with
  | nil =>
    unfold containsSub at habs
    exact hm [] habs
  | cons c hs ih =>
    unfold containsSub at habs
    rw [Bool.or_eq_false_iff] at habs
    unfold searchCapture
    rw [hm _ habs.1]
    exact ih habs.2

theorem matchDollarAt_of_no_label (needle : List Char) (s : List Char)
    (h : startsWithChars needle s = false) : matchDollarAt needle s = none := by
  unfold matchDollarAt
  simp [h]

theorem matchPercentAt_of_no_label (needle : List Char) (s : List Char)
    (h : startsWithChars needle s = false) : matchPercentAt needle s = none := by
  unfold matchPercentAt
  simp [h]

theorem emStep4_revenue (s : List Char) (k : Kpis) :
    (emStep4 s k).revenue = k.revenue := by
  unfold emStep4
  split
  · split <;> rfl
  · rfl

theorem emStep3_revenue (s : List Char) (k : Kpis) :
    (emStep3 s k).revenue = k.revenue := by
  unfold emStep3
  split
  · split
    · rw [emStep4_revenue]
    · rfl
  · rw [emStep4_revenue]

theorem emStep2_revenue (s : List Char) (k : Kpis) :
    (emStep2 s k).revenue = k.revenue := by
  unfold emStep2
  split
  · split
    · rw [emStep3_revenue]
    · rfl
  · rw [emStep3_revenue]

/-- `startsWithChars` only looks at a prefix as long as the needle. -/
theorem startsWithChars_append (needle l l₂ : List Char)
    (h : startsWithChars needle l = true) :
    startsWithChars needle (l ++ l₂) = true := by
  induction needle generalizing l with
  | nil => rfl
  | cons n ns ih =>
    cases l with
    | nil => exact absurd h (by simp [startsWithChars])
    | cons c cs =>
      unfold startsWithChars at h ⊢
      rw [Bool.and_eq_true] at h
      simp only [List.cons_append]
      rw [Bool.and_eq_true]
      exact ⟨h.1, ih cs h.2⟩

theorem takeWhile_append_chars (p : Char → Bool) (l₁ l₂ : List Char) :
    (l₁ ++ l₂).takeWhile p
    = if l₁.all p then l₁ ++ l₂.takeWhile p else l₁.takeWhile p := by
  induction l₁ with
  | nil => simp
  | cons c cs ih =>
    by_cases hc : p c
    · simp [List.takeWhile_cons, hc, ih]
      split <;> rfl
    · simp [List.takeWhile_cons, hc]

theorem dropWhile_append_chars (p : Char → Bool) (l₁ l₂ : List Char) :
    (l₁ ++ l₂).dropWhile p
    = if l₁.all p then l₂.dropWhile p else l₁.dropWhile p ++ l₂ := by
  induction l₁ with
  | nil => simp
  | cons c cs ih =>
    by_cases hc : p c
    · simp [List.dropWhile_cons, hc, ih]
    · simp [List.dropWhile_cons, hc]

/-- The query-body trace of a valid semantic-search request: exactly one
body, carrying an empty filter list. -/
theorem semantic_search_trace (queryText : Option String) (b : KpiBounds) (limit : Nat)
    (esSearch : QueryBody → List PyDict) (llm : String → Option String)
    (embed : String → List ℚ)
    (hval : (!strTruthy queryText && !anyBound b) = false) :
    (semantic_search queryText b limit esSearch llm embed).2
      = [if strTruthy queryText then
           QueryBody.scriptScore [] (embed (queryText.getD "")) limit
         else QueryBody.boolFilter [] limit] := by
  simp only [semantic_search, hval, Bool.false_eq_true, if_false]
  split
  all_goals
    split
    · rfl
    · split
      · rfl
      · split <;> rfl

/-! ### The claims -/

/-- C1: for every hybrid numeric-augmented retrieval request that returns
a response, every candidate's final score equals 0.7 times its relevance
score plus 0.3 times its Numeric Scorer score, each component defaulting
to 0 when undefined (the relevance component is exactly the value the
ranking loop assigned, which falls back to 0 whenever the enriched
document is not found in the raw candidate list). -/
theorem hybrid_final_score_invariant
    (bounds : KpiBounds) (limit : Nat) (esHits : List ESHit)
    (llm : String → Option String) (llmAnswer : Option String)
    (result : NQueryResult)
    (h : query_numeric_documents bounds limit esHits llm llmAnswer = .ok result) :
    ∀ t ∈ result.ranked_documents, t.1 = 7/10 * t.2.1 + 3/10 * t.2.2.1 := by
  simp only [query_numeric_documents] at h
  split at h
  · exact Except.noConfusion h
  · split at h
    · exact Except.noConfusion h
    · split at h
      · exact Except.noConfusion h
      · rename_i ranked hra
        split at h
        · exact Except.noConfusion h
        · injection h with h'
          subst h'
          intro t ht
          have ht2 : t ∈ sortByFinalDesc ranked := List.take_subset _ _ ht
          exact rankAll_final _ _ _ _ hra t (mem_sortByFinalDesc ht2)

/-- C1 witness: the invariant instantiated on a concrete request with one
candidate. -/
theorem hybrid_final_score_invariant_witness :
    ((3 : ℚ)/10, (0 : ℚ), (1 : ℚ), exEnriched).1
      = 7/10 * ((3 : ℚ)/10, (0 : ℚ), (1 : ℚ), exEnriched).2.1
        + 3/10 * ((3 : ℚ)/10, (0 : ℚ), (1 : ℚ), exEnriched).2.2.1 :=
  hybrid_final_score_invariant exBoundsRev 5 [⟨2, exRawDoc⟩] exLlm200 (some "answer")
    ⟨"answer", [((3 : ℚ)/10, 0, 1, exEnriched)]⟩ (by with_unfolding_all rfl)
    ((3 : ℚ)/10, 0, 1, exEnriched) (List.mem_singleton.mpr rfl)

/-- C2 counterexample: a semantic-search request that supplies
`min_revenue = 100` together with query text issues a query body whose
filter list is empty — the supplied bound is not translated into a range
predicate ANDed into the index query (although `create_filters` would
have produced exactly that predicate). -/
theorem semantic_bounds_not_in_query_counterexample :
    (semantic_search (some "growth") exBoundsMinRev 10 (fun _ => []) (fun _ => none)
        (fun _ => [1, 2])).2
      = [QueryBody.scriptScore [] [1, 2] 10] ∧
    create_filters exBoundsMinRev = [⟨"revenue", true, 100⟩] :=
  ⟨rfl, rfl⟩

/-- C2 amended: the index query of semantic search always carries an
empty filter list (the source never populates `filters`): with query text
it is the cosine-similarity + 1.0 ranking over all documents, without it a
filter query with no predicates; the supplied KPI bounds act only through
the post-filter over extracted KPIs, which every returned result
satisfies. -/
theorem semantic_search_bounds_amended
    (queryText : Option String) (b : KpiBounds) (limit : Nat)
    (esSearch : QueryBody → List PyDict) (llm : String → Option String)
    (embed : String → List ℚ) :
    (∀ body ∈ (semantic_search queryText b limit esSearch llm embed).2,
        bodyFilters body = []) ∧
    (strTruthy queryText = true →
      (semantic_search queryText b limit esSearch llm embed).2
        = [QueryBody.scriptScore [] (embed (queryText.getD "")) limit]) ∧
    (strTruthy queryText = false → anyBound b = true →
      (semantic_search queryText b limit esSearch llm embed).2
        = [QueryBody.boolFilter [] limit]) ∧
    (∀ results, (semantic_search queryText b limit esSearch llm embed).1 = .ok results →
      ∀ r ∈ results, checkKpiBounds b r.extracted_kpis = .ok true) := by
  refine ⟨?_, ?_, ?_, ?_⟩
  · intro body hb
    by_cases hval : (!strTruthy queryText && !anyBound b) = true
    · simp only [semantic_search, hval, if_true] at hb
      simp at hb
    · rw [semantic_search_trace queryText b limit esSearch llm embed
          (Bool.not_eq_true _ ▸ hval)] at hb
      rcases List.mem_singleton.mp hb with rfl
      split <;> rfl
  · intro hq
    rw [semantic_search_trace queryText b limit esSearch llm embed (by simp [hq])]
    rw [if_pos hq]
  · intro hq hb
    rw [semantic_search_trace queryText b limit esSearch llm embed (by simp [hb])]
    rw [if_neg (by simp [hq])]
  · intro results hres r hr
    simp only [semantic_search] at hres
    split at hres
    · exact Except.noConfusion hres
    · split at hres
      all_goals
        split at hres
        · exact Except.noConfusion hres
        · split at hres
          · exact Except.noConfusion hres
          · rename_i res0 hloop2
            split at hres
            · exact Except.noConfusion hres
            · injection hres with h'
              subst h'
              exact kpiFilterLoop_passes _ _ _ _ hloop2 r hr

/-- C2 witness: the amended statement instantiated on a concrete
request. -/
theorem semantic_search_bounds_amended_witness :
    (semantic_search (some "finance") exBoundsMinRev 10 (fun _ => []) (fun _ => none)
        (fun _ => [1])).2
      = [QueryBody.scriptScore [] [1] 10] := by
  have h := (semantic_search_bounds_amended (some "finance") exBoundsMinRev 10
      (fun _ => []) (fun _ => none) (fun _ => [1])).2.1 (by decide)
  exact h

/-- C3: a malformed numeric text leaves the single KPI null without
aborting (`parse_kpis_from_response` returns the all-null record on
"Revenue: unknown"), but post-filtering a document whose KPI is null for a
field with a supplied bound does **not** complete: the `None >= bound`
comparison raises a `TypeError` that escapes the request. -/
theorem null_kpi_postfilter_crash :
    parse_kpis_from_response "Revenue: unknown" = emptyKpis ∧
    (filter_documents exBoundsMinRev 10 (fun _ => [exDocNoFigures])
        (fun _ => some "Revenue: unknown")).1
      = .error (.uncaught "TypeError: not supported between instances of NoneType and float") :=
  ⟨rfl, rfl⟩

/-- C4: on the spec's scenario (`min_revenue=100`, `max_revenue=300`, one
candidate with extracted revenue 200 and native relevance score 2.0) the
query target is indeed the midpoint 200 and the numerical score is 1, but
the code's final score is 0.3, not 1.7: `search_elasticsearch` discards
the native `_score`, and the ranking loop's `scores` list aliases the
document list, so the relevance component is always 0. -/
theorem hybrid_scenario_relevance_lost :
    numericQueryParams exBoundsRev
      = [("revenue", PyVal.num 200), ("net_profit", PyVal.pnone),
         ("revenue_growth_rate", PyVal.pnone), ("operational_cost_reduction", PyVal.pnone)] ∧
    query_numeric_documents exBoundsRev 5 [⟨2, exRawDoc⟩] exLlm200 (some "answer")
      = .ok ⟨"answer", [((3 : ℚ)/10, 0, 1, exEnriched)]⟩ ∧
    ((3 : ℚ)/10) ≠ 17/10 := by
  refine ⟨by with_unfolding_all rfl, by with_unfolding_all rfl, by norm_num⟩

/-- C5: the Numeric Scorer is the sum over the four KPIs of
`weight / (1 + |actual - target|)` with the default weight 1 per KPI; a
KPI absent on either side contributes zero; the contribution equals the
weight at gap 0 and is non-increasing in the gap; the total is never
negative and is bounded by the sum of the weights. -/
theorem numeric_scorer_spec (document query_params : PyDict) :
    compute_numerical_score document query_params default_weights
      = contrib 1 (asNum? (pyGet query_params "revenue")) (asNum? (pyGet document "revenue"))
        + contrib 1 (asNum? (pyGet query_params "net_profit")) (asNum? (pyGet document "net_profit"))
        + contrib 1 (asNum? (pyGet query_params "revenue_growth_rate")) (asNum? (pyGet document "revenue_growth_rate"))
        + contrib 1 (asNum? (pyGet query_params "operational_cost_reduction")) (asNum? (pyGet document "operational_cost_reduction"))
    ∧ (∀ (w : ℚ) (x : Option ℚ), contrib w none x = 0 ∧ contrib w x none = 0)
    ∧ (∀ w t : ℚ, contrib w (some t) (some t) = w)
    ∧ (∀ w t₁ t₂ a₁ a₂ : ℚ, 0 ≤ w → |a₁ - t₁| ≤ |a₂ - t₂| →
        contrib w (some t₂) (some a₂) ≤ contrib w (some t₁) (some a₁))
    ∧ 0 ≤ compute_numerical_score document query_params default_weights
    ∧ compute_numerical_score document query_params default_weights
        ≤ (default_weights.map Prod.snd).sum := by
  have c1 := contrib_nonneg 1 (asNum? (pyGet query_params "revenue"))
    (asNum? (pyGet document "revenue")) one_pos.le
  have c2 := contrib_nonneg 1 (asNum? (pyGet query_params "net_profit"))
    (asNum? (pyGet document "net_profit")) one_pos.le
  have c3 := contrib_nonneg 1 (asNum? (pyGet query_params "revenue_growth_rate"))
    (asNum? (pyGet document "revenue_growth_rate")) one_pos.le
  have c4 := contrib_nonneg 1 (asNum? (pyGet query_params "operational_cost_reduction"))
    (asNum? (pyGet document "operational_cost_reduction")) one_pos.le
  have d1 := contrib_le_weight 1 (asNum? (pyGet query_params "revenue"))
    (asNum? (pyGet document "revenue")) one_pos.le
  have d2 := contrib_le_weight 1 (asNum? (pyGet query_params "net_profit"))
    (asNum? (pyGet document "net_profit")) one_pos.le
  have d3 := contrib_le_weight 1 (asNum? (pyGet query_params "revenue_growth_rate"))
    (asNum? (pyGet document "revenue_growth_rate")) one_pos.le
  have d4 := contrib_le_weight 1 (asNum? (pyGet query_params "operational_cost_reduction"))
    (asNum? (pyGet document "operational_cost_reduction")) one_pos.le
  have hsum' : compute_numerical_score document query_params default_weights
      = contrib 1 (asNum? (pyGet query_params "revenue")) (asNum? (pyGet document "revenue"))
        + contrib 1 (asNum? (pyGet query_params "net_profit")) (asNum? (pyGet document "net_profit"))
        + contrib 1 (asNum? (pyGet query_params "revenue_growth_rate")) (asNum? (pyGet document "revenue_growth_rate"))
        + contrib 1 (asNum? (pyGet query_params "operational_cost_reduction")) (asNum? (pyGet document "operational_cost_reduction")) := by
    rw [compute_numerical_score_eq_sum]
    simp [default_weights]
    ring
  refine ⟨hsum', ?_, ?_, ?_, ?_, ?_⟩
  · intro w x
    exact ⟨contrib_absent_left w x, contrib_absent_right w x⟩
  · intro w t
    exact contrib_zero_gap w t
  · intro w t₁ t₂ a₁ a₂ hw h
    exact contrib_antitone w t₁ t₂ a₁ a₂ hw h
  · rw [hsum']
    linarith
  · rw [hsum']
    simp only [default_weights, List.map_cons, List.map_nil, List.sum_cons, List.sum_nil]
    linarith

/-- C5 witness: the gap-0 and monotonicity clauses instantiated at
concrete values, through the main theorem. -/
theorem numeric_scorer_spec_witness :
    contrib 1 (some (200 : ℚ)) (some 200) = 1 ∧
    contrib 1 (some (200 : ℚ)) (some 210) ≤ contrib 1 (some (200 : ℚ)) (some 205) ∧
    (0 : ℚ) ≤ compute_numerical_score exEnriched (numericQueryParams exBoundsRev)
        default_weights := by
  obtain ⟨-, -, hzero, hmono, hnonneg, -⟩ :=
    numeric_scorer_spec exEnriched (numericQueryParams exBoundsRev)
  refine ⟨hzero 1 200, hmono 1 200 200 205 210 (by norm_num) ?_, hnonneg⟩
  rw [show (205 : ℚ) - 200 = 5 by norm_num, show (210 : ℚ) - 200 = 10 by norm_num]
  rw [abs_of_nonneg (by norm_num), abs_of_nonneg (by norm_num)]
  norm_num

/-- C6: a filter-only request with no bound supplied, and a semantic
request with neither query text nor any bound, are rejected with the 400
`InvalidRequest` error, with an empty index-call trace and for every
behaviour of the index, model and embedding collaborators (so before any
external call). -/
theorem invalid_requests_rejected_before_index (limit : Nat)
    (esSearch : QueryBody → List PyDict) (llm : String → Option String)
    (embed : String → List ℚ) :
    filter_documents noBounds limit esSearch llm
      = (.error (.http 400 "At least one filter must be provided."), []) ∧
    semantic_search none noBounds limit esSearch llm embed
      = (.error (.http 400 "At least one filter or a query must be provided."), []) :=
  ⟨rfl, rfl⟩

/-- C7: reindexing drops whatever index existed and bulk-loads the fresh
documents; the state afterwards — and hence any immediate query — holds
exactly the freshly fetched documents, independent of the prior index
contents. -/
theorem reindex_replaces_index_contents (embed : String → List ℚ)
    (dbDocs : List DbDoc) (st : ESState) (hne : dbDocs ≠ [])
    (hnd : (dbDocs.map (fun d => d.document_id)).Nodup) :
    load_documents_to_elasticsearch embed dbDocs st
      = (.ok "Documents indexed successfully",
         some (dbDocs.map (fun d => (d.document_id, mkSource embed d)))) ∧
    searchMatchAll (load_documents_to_elasticsearch embed dbDocs st).2
      = dbDocs.map (mkSource embed) := by
  have hmain : load_documents_to_elasticsearch embed dbDocs st
      = (.ok "Documents indexed successfully",
         some (dbDocs.map (fun d => (d.document_id, mkSource embed d)))) := by
    unfold load_documents_to_elasticsearch
    have hie : dbDocs.isEmpty = false := by
      cases dbDocs with
      | nil => exact absurd rfl hne
      | cons d ds => rfl
    rw [hie]
    simp only [Bool.false_eq_true, if_false]
    unfold index_documents_in_elasticsearch bulkIndex
    have hgd : ((if st.isSome then none else st).getD []) = ([] : ESIndex) := by
      cases st <;> rfl
    rw [hgd, foldl_upsert_nodup _ []
      (by simpa [Function.comp] using hnd)
      (by intro a ha p hp; cases hp)]
    simp
  refine ⟨hmain, ?_⟩
  rw [hmain]
  simp [searchMatchAll, Function.comp]

/-- C7 witness: reindexing on top of a non-empty old index yields exactly
the two fresh documents. -/
theorem reindex_replaces_index_contents_witness :
    searchMatchAll (load_documents_to_elasticsearch (fun _ => [3]) [exDb1, exDb2]
        (some [("old", exDocNoFigures)])).2
      = [mkSource (fun _ => [3]) exDb1, mkSource (fun _ => [3]) exDb2] := by
  have h := reindex_replaces_index_contents (fun _ => [3]) [exDb1, exDb2]
    (some [("old", exDocNoFigures)]) (by decide) (by decide)
  simpa using h.2

/-- C8 counterexample: on a response carrying two revenue lines the KPI
Responder Bridge line parser keeps the **last** parsed occurrence (200),
not the first (100). -/
theorem duplicate_label_counterexample :
    (parse_kpis_from_response "Revenue: $100\nRevenue: $200").revenue = some 200 ∧
    ¬ (parse_kpis_from_response "Revenue: $100\nRevenue: $200").revenue = some 100 :=
  ⟨by decide, by decide⟩

/-- C8 amended: the regex Metric Extractor resolves duplicate labels to
the first occurrence top-to-bottom, while the KPI Responder Bridge line
parser lets every successfully parsed labelled line overwrite the field,
so there the last parseable occurrence wins. -/
theorem extraction_occurrence_order (k : Kpis) (line : List Char) (v : ℚ)
    (hline : containsSub ("revenue:".toList) (line.map Char.toLower) = true)
    (hv : pyFloat? (moneyField line) = some v) :
    (extract_metrics "Revenue: $100\nRevenue: $200").revenue = some 100 ∧
    (parse_kpis_from_response "Revenue: $100\nRevenue: $200").revenue = some 200 ∧
    (parseKpiLine k line).revenue = some v := by
  refine ⟨by decide, by decide, ?_⟩
  simp only [parseKpiLine, hline, if_true, hv]

/-- C8 witness: the overwrite clause instantiated on a concrete line. -/
theorem extraction_occurrence_order_witness :
    (parseKpiLine emptyKpis ("Revenue: $7".toList)).revenue = some 7 :=
  (extraction_occurrence_order emptyKpis ("Revenue: $7".toList) 7
    (by decide) (by decide)).2.2

set_option maxRecDepth 2000 in
/-- C9: the spec's scenario content extracts exactly
`{revenue: 500000, net_profit: 120000, revenue_growth_rate: 12.5,
operational_cost_reduction: null}`; any content opening with the
well-formed line "Revenue: $1,234.50" (followed by anything that does not
extend the number) yields revenue 1234.50; and a content without the
label leaves the field null. -/
theorem metric_extractor_labeled_lines (content : String) (post : List Char)
    (habs : containsSub ("Revenue".toList) content.toList = false)
    (hpost : isDigitCommaDot (post.headD ' ') = false) :
    extract_metrics "Revenue: $500,000\nNet Profit: $120,000\nRevenue Growth Rate: 12.5%"
      = ⟨some 500000, some 120000, some (25/2), none⟩ ∧
    (extract_metrics (String.mk ("Revenue: $1,234.50".toList ++ post))).revenue
      = some (2469/2) ∧
    (extract_metrics content).revenue = none := by
  refine ⟨?_, ?_, ?_⟩
  · have h1 : extract_metrics
        "Revenue: $500,000\nNet Profit: $120,000\nRevenue Growth Rate: 12.5%"
        = ⟨some ((digitsToNat ("500000".toList) : ℚ)),
           some ((digitsToNat ("120000".toList) : ℚ)),
           some ((digitsToNat ("12".toList) : ℚ)
             + (digitsToNat ("5".toList) : ℚ) / (10 : ℚ) ^ ("5".toList).length),
           none⟩ := rfl
    rw [h1]
    rw [show digitsToNat ("500000".toList) = 500000 from by decide]
    rw [show digitsToNat ("120000".toList) = 120000 from by decide]
    rw [show digitsToNat ("12".toList) = 12 from by decide]
    rw [show digitsToNat ("5".toList) = 5 from by decide]
    rw [show ("5".toList).length = 1 from by decide]
    norm_num [Kpis.mk.injEq]
  · have hst : startsWithChars ("Revenue".toList)
        ("Revenue: $1,234.50".toList ++ post) = true :=
      startsWithChars_append _ _ _ (by decide)
    have hdrop : ("Revenue: $1,234.50".toList ++ post).drop (("Revenue".toList).length)
        = ": $1,234.50".toList ++ post := by
      rw [List.drop_append_of_le_length (by decide)]
      rfl
    have htk : post.takeWhile isDigitCommaDot = [] := by
      cases post with
      | nil => rfl
      | cons c cs =>
        simp only [List.headD_cons] at hpost
        simp [List.takeWhile_cons, hpost]
    have htake : ((": $1,234.50".toList ++ post).takeWhile isColonOrSpace).isEmpty
        = false := by
      rw [takeWhile_append_chars]
      rw [if_neg (by decide)]
      decide
    have hdw : (": $1,234.50".toList ++ post).dropWhile isColonOrSpace
        = '$' :: ("1,234.50".toList ++ post) := by
      rw [dropWhile_append_chars]
      rw [if_neg (by decide)]
      rfl
    have hcap : ("1,234.50".toList ++ post).takeWhile isDigitCommaDot
        = "1,234.50".toList := by
      rw [takeWhile_append_chars]
      rw [if_pos (by decide)]
      rw [htk, List.append_nil]
    have hm : matchDollarAt ("Revenue".toList) ("Revenue: $1,234.50".toList ++ post)
        = some ("1,234.50".toList) := by
      unfold matchDollarAt
      rw [hst, if_pos rfl, hdrop, htake, hdw]
      simp only [Bool.false_eq_true, if_false]
      rw [hcap]
      rw [if_neg (by decide)]
    have hsc := searchCapture_head (matchDollarAt ("Revenue".toList))
      ("Revenue: $1,234.50".toList ++ post) ("1,234.50".toList) hm
    have hpf : pyFloat? (removeChar ',' ("1,234.50".toList)) = some (2469/2) := by
      have hrm : pyFloat? (removeChar ',' ("1,234.50".toList))
          = some ((digitsToNat ("1234".toList) : ℚ)
              + (digitsToNat ("50".toList) : ℚ) / (10 : ℚ) ^ ("50".toList).length) := by
        rfl
      rw [hrm]
      rw [show digitsToNat ("1234".toList) = 1234 from by decide]
      rw [show digitsToNat ("50".toList) = 50 from by decide]
      rw [show ("50".toList).length = 2 from by decide]
      norm_num
    unfold extract_metrics emStep1
    have hlist : (String.mk ("Revenue: $1,234.50".toList ++ post)).toList
        = "Revenue: $1,234.50".toList ++ post := rfl
    rw [hlist, hsc]
    simp only [hpf]
    rw [emStep2_revenue]
  · unfold extract_metrics emStep1
    rw [searchCapture_none ("Revenue".toList) _
      (fun s hs => matchDollarAt_of_no_label _ s hs) content.toList habs]
    rw [emStep2_revenue]
    rfl

/-- C9 witness: the well-formed-line and label-absent clauses
instantiated concretely. -/
theorem metric_extractor_labeled_lines_witness :
    (extract_metrics (String.mk ("Revenue: $1,234.50".toList ++ []))).revenue
      = some (2469/2) ∧
    (extract_metrics "Net Profit: $5").revenue = none := by
  have h := metric_extractor_labeled_lines "Net Profit: $5" [] (by decide) (by decide)
  exact ⟨h.2.1, h.2.2⟩

set_option maxRecDepth 2000 in
/-- C10 counterexample: under `/efilter`, the bound `min_revenue = 0`
(supplied together with `max_revenue = 500` to pass validity) excludes a
document whose extracted revenue is −5, while omitting the bound admits
the same document — so a zero-valued bound does not behave as omitted in
the post-filter. -/
theorem zero_bound_not_omitted_counterexample :
    (filter_documents ⟨some 0, some 500, none, none, none, none, none, none⟩ 10
        (fun _ => [exDocLoss]) (fun _ => some "Revenue: $-5")).1
      = .error (.http 404 "No documents matched the filter criteria.") ∧
    (filter_documents ⟨none, some 500, none, none, none, none, none, none⟩ 10
        (fun _ => [exDocLoss]) (fun _ => some "Revenue: $-5")).1
      = .ok [⟨.str "T", "Loss report", ⟨some (-5), none, none, none⟩⟩] :=
  ⟨by with_unfolding_all rfl, by with_unfolding_all rfl⟩

/-- C10 amended: a zero-valued bound is falsy, so it never counts toward
the validity check of any of the three endpoints (a request whose only
criterion is a zero bound is rejected with 400), and it imposes no
constraint in the hybrid endpoint's post-filter nor in
`apply_numeric_filters`; but the `/efilter` and `/semantic-search`
post-filters test bounds with `is None`, so there a zero bound does
constrain candidates (and even raises on a null KPI). -/
theorem zero_bound_behavior_amended (limit : Nat)
    (esSearch : QueryBody → List PyDict) (llm : String → Option String)
    (embed : String → List ℚ) (esHits : List ESHit) (llmAnswer : Option String)
    (v : PyVal) :
    filter_documents zeroOnlyBounds limit esSearch llm
      = (.error (.http 400 "At least one filter must be provided."), []) ∧
    semantic_search none zeroOnlyBounds limit esSearch llm embed
      = (.error (.http 400 "At least one filter or a query must be provided."), []) ∧
    query_numeric_documents zeroOnlyBounds limit esHits llm llmAnswer
      = .error (.http 400 "At least one numerical filter (min and max) must be provided.") ∧
    minOkNum (some 0) v = true ∧ maxOkNum (some 0) v = true ∧
    anfMin (some 0) v = .ok true ∧ anfMax (some 0) v = .ok true ∧
    checkMin (some 0) none
      = .error "TypeError: not supported between instances of NoneType and float" ∧
    checkMin (some 0) (some (-5)) = .ok false :=
  ⟨rfl, rfl, rfl, rfl, rfl, rfl, rfl, rfl, rfl⟩

end Insights
